import Mathlib

/-!
Verification development for the email-client backend
(`emailUtils.js`, `emailProviders.js`, `https-examples.js` server part).

The JavaScript code is shallowly embedded: callback/promise-based adapter
calls become pure functions from an explicit environment (which network
events occur, in which order) to an outcome record that captures the
settled promise value and the observable side conditions (whether a
transport fetch was issued, whether the connection was released, how many
RETR commands were sent).  Machine-level JS values are modelled as
`String`/`Int`/`Nat`; `undefined`/`null` as `Option`; a thrown `TypeError`
as an `Except` error.
-/

/-- A JavaScript runtime error surfaced by the embedded code: either an
unstructured `TypeError` (e.g. dereferencing `undefined`) or an ordinary
rejection carrying a message. -/
inductive JsError where
  | typeError
  | err (msg : String)
  deriving DecidableEq, Repr

/-- JS falsiness of a possibly-absent string (`undefined`, `null` and `""`
are falsy). -/
def strFalsy : Option String → Bool
  | none => true
  | some s => s = ""

/-- `chStartsWith needle hay` : the character list `hay` starts with
`needle`. -/
def chStartsWith : List Char → List Char → Bool
  | [], _ => true
  | _ :: _, [] => false
  | a :: as, b :: bs => a = b && chStartsWith as bs

/-- `chContains hay needle` : `needle` occurs contiguously inside `hay`.
Embeds JS `String.prototype.includes` (empty needle always matches). -/
def chContains : List Char → List Char → Bool
  | _, [] => true
  | [], _ :: _ => false
  | c :: t, n :: ns => chStartsWith (n :: ns) (c :: t) || chContains t (n :: ns)

/-- JS `s.includes(sub)`. -/
def jsIncludes (s sub : String) : Bool :=
  chContains s.data sub.data

/-- Splits a character list at every occurrence of `c`
(JS `String.prototype.split` with a single-character separator). -/
def splitOnChar (c : Char) : List Char → List (List Char)
  | [] => [[]]
  | x :: xs =>
    let r := splitOnChar c xs
    if x = c then [] :: r
    else
      match r with
      | y :: ys => (x :: y) :: ys
      | [] => [[x]]

/-- JS `email.split('@')` as a list of strings. -/
def jsSplitAtSign (email : String) : List String :=
  (splitOnChar '@' email.data).map fun l => ⟨l⟩

/-- ASCII lowering of one character (the `toLowerCase` behaviour relevant
to host-name domains). -/
def jsCharToLower (c : Char) : Char :=
  if 'A' ≤ c ∧ c ≤ 'Z' then Char.ofNat (c.toNat + 32) else c

/-- JS `s.toLowerCase()`. -/
def jsToLower (s : String) : String :=
  ⟨s.data.map jsCharToLower⟩

/-- One protocol endpoint of a provider profile: host, port and the
profile's configured transport-security flag (`config.js` is not part of
the sources; the endpoint shape is the spec's ProviderProfile data model,
§3). -/
structure Endpoint where
  host : String
  port : Int
  secure : Bool
  deriving DecidableEq, Repr

/-- A provider-directory profile: optional IMAP/POP3/SMTP endpoints
(`provider.imap` etc. may be absent, which the source guards with
truthiness checks during lookup but not during settings merge). -/
structure ProviderProfile where
  imap : Option Endpoint
  pop3 : Option Endpoint
  smtp : Option Endpoint
  deriving DecidableEq, Repr

/-- The provider table: key/profile pairs in object-key order
(`Object.keys(providers)` preserves insertion order). -/
abbrev ProviderTable := List (String × ProviderProfile)

/-- `provider.imap && provider.imap.host.includes(domain)` from
`emailProviders.js`. -/
def endpointHostIncludes : Option Endpoint → String → Bool
  | none, _ => false
  | some e, domain => jsIncludes e.host domain

/-- The per-profile match predicate of `getProviderSettings`: the lowered
domain occurs as a substring of the configured IMAP host or of the
configured POP3 host. -/
def profileMatches (p : ProviderProfile) (domain : String) : Bool :=
  endpointHostIncludes p.imap domain || endpointHostIncludes p.pop3 domain

/-- `getProviderSettings(email)` from `emailProviders.js`:
`email.split('@')[1]` is `undefined` when the address has no `@`, and the
subsequent `.toLowerCase()` throws a `TypeError`; otherwise the first
profile (in table order) whose IMAP or POP3 host contains the lowered
domain is returned, `null` (here `none`) when no profile matches. -/
def getProviderSettings (table : ProviderTable) (email : String) :
    Except JsError (Option ProviderProfile) :=
  match (jsSplitAtSign email)[1]? with
  | none => .error .typeError
  | some d =>
    let domain := jsToLower d
    .ok ((List.find? (fun kv => profileMatches kv.2 domain) table).map (·.2))

/-- `providerSettings ? providerSettings.<proto>.host : userHost` from the
route handlers: when a profile matched, its endpoint is authoritative
(dereferencing a missing endpoint throws); otherwise the user-supplied
value is used. -/
def finalHost (ps : Option ProviderProfile) (sel : ProviderProfile → Option Endpoint)
    (user : Option String) : Except JsError (Option String) :=
  match ps with
  | none => .ok user
  | some p =>
    match sel p with
    | none => .error .typeError
    | some e => .ok (some e.host)

/-- `providerSettings ? providerSettings.<proto>.port : userPort` from the
route handlers. -/
def finalPort (ps : Option ProviderProfile) (sel : ProviderProfile → Option Endpoint)
    (user : Option Int) : Except JsError (Option Int) :=
  match ps with
  | none => .ok user
  | some p =>
    match sel p with
    | none => .error .typeError
    | some e => .ok (some e.port)

/-- A raw mailbox message as seen by the transport: the parsed timestamp
(`new Date(...)` abstracted to an integer), the IMAP UID and the `\Seen`
flag.  Text fields (from/to/subject/body) play no role in any claim and
are elided. -/
structure RawMsg where
  date : Int
  uid : Int
  seen : Bool
  deriving DecidableEq, Repr

/-- A fetched IMAP message summary (`emailData` in `fetchImapEmails`). -/
structure EmailMsg where
  date : Int
  uid : Int
  unread : Bool
  deriving DecidableEq, Repr

/-- One entry of `emails` built by `fetchImapEmails`' message handlers:
parsed date plus the attributes captured on the `attributes` event. -/
def parseImapMsg (r : RawMsg) : EmailMsg :=
  { date := r.date, uid := r.uid, unread := !r.seen }

/-- Stable descending insertion for the comparator
`(a, b) => new Date(b.date) - new Date(a.date)`: `m` is placed before the
first element whose date is `≤ m.date`, so equal dates keep their original
relative order. -/
def insertByDateDesc (m : EmailMsg) : List EmailMsg → List EmailMsg
  | [] => [m]
  | x :: xs => if x.date ≤ m.date then m :: x :: xs else x :: insertByDateDesc m xs

/-- `emails.sort((a, b) => new Date(b.date) - new Date(a.date))` — JS
`Array.prototype.sort` is stable, embedded as stable insertion sort. -/
def sortByDateDesc : List EmailMsg → List EmailMsg
  | [] => []
  | m :: rest => insertByDateDesc m (sortByDateDesc rest)

theorem length_insertByDateDesc (m : EmailMsg) :
    ∀ l : List EmailMsg, (insertByDateDesc m l).length = l.length + 1 := by
  intro l
  induction l with
  | nil => rfl
  | cons x xs ih =>
    simp only [insertByDateDesc]
    split
    · rfl
    · simp [ih]

theorem length_sortByDateDesc :
    ∀ l : List EmailMsg, (sortByDateDesc l).length = l.length := by
  intro l
  induction l with
  | nil => rfl
  | cons m rest ih => simp [sortByDateDesc, length_insertByDateDesc, ih]

/-- Environment of one `fetchImapEmails` call: which adapter events fire.
`mailbox i` is the raw message at sequence number `i`; `total` is
`box.messages.total`. -/
structure ImapFetchEnv where
  connectErr : Option String
  openBoxErr : Option String
  total : Nat
  count : Nat
  mailbox : Nat → RawMsg
  fetchErr : Option String
  /-- The sequence numbers the server streams back when the requested
  window is inverted (`start > end`, i.e. `count = 0` with a non-empty
  mailbox).  RFC 3501 sequence ranges are order-immaterial (`2:1` means
  `1:2`), so what such a fetch delivers — possibly a message, possibly
  nothing — is the server's choice, not the code's; a server that instead
  answers BAD is covered by `fetchErr`. -/
  invertedDelivery : List Nat

/-- Observable outcome of one `fetchImapEmails` call: the settled promise,
whether `imap.seq.fetch` was issued, and whether `imap.end()` was called
before the promise settled. -/
structure ImapFetchOutcome where
  result : Except JsError (List EmailMsg)
  fetchIssued : Bool
  ended : Bool

/-- `fetchImapEmails` from `emailUtils.js`, path by path:
connection error → reject without `end()`; `openBox` error → reject
without `end()`; empty mailbox → resolve `[]` after `end()`, no fetch;
fetch stream error → reject without `end()`; otherwise issue
`imap.seq.fetch` for the window
`max(1, total - min(count, total) + 1) : total`, one summary per streamed
message, `end()`, sort by date descending, resolve.  When the window is
well-formed (`start ≤ end`) the stream carries exactly the window's
messages; when it is inverted (`count = 0`, mailbox non-empty) the code
still sends the fetch and the stream carries whatever the server chooses
to deliver (`env.invertedDelivery`). -/
def fetchImapEmailsRun (env : ImapFetchEnv) : ImapFetchOutcome :=
  match env.connectErr with
  | some e => ⟨.error (.err e), false, false⟩
  | none =>
    match env.openBoxErr with
    | some e => ⟨.error (.err e), false, false⟩
    | none =>
      if env.total = 0 then ⟨.ok [], false, true⟩
      else
        let fetchCount := min env.count env.total
        let start := max 1 (env.total - fetchCount + 1)
        let finish := env.total
        match env.fetchErr with
        | some e => ⟨.error (.err e), true, false⟩
        | none =>
          let seqs := if start ≤ finish then List.range' start (finish + 1 - start)
            else env.invertedDelivery
          let emails := seqs.map fun i => parseImapMsg (env.mailbox i)
          ⟨.ok (sortByDateDesc emails), true, true⟩

/-- A POP3 message summary (`fetchPop3Emails` pushes
`{id: i, from, subject, date, body}`; only the retr index and the date
matter to the claims). -/
structure Pop3Msg where
  id : Nat
  date : Int
  deriving DecidableEq, Repr

/-- The completion event of one `client.retr(i, ...)` callback chain:
retrieval error, parse error, or a successfully parsed message. -/
inductive Pop3Event where
  | retrErr
  | parseErr
  | parsed (id : Nat) (date : Int)
  deriving DecidableEq, Repr

/-- Mutable state of the POP3 fetch loop: the `fetched` counter, the
`emails` accumulator, the settled promise value (`none` = still pending)
and whether `client.quit()` ran. -/
structure Pop3State where
  fetched : Nat
  emails : List Pop3Msg
  result : Option (List Pop3Msg)
  quitCalled : Bool
  deriving DecidableEq, Repr

/-- One retr-callback completion, exactly as `fetchPop3Emails` handles it:
a retrieval error is logged and increments `fetched` but performs no
completion check; a parse error is logged and returns without touching
`fetched`; a parsed message is appended, `fetched` is incremented, and
only then is `fetched === fetchCount` checked, quitting and resolving. -/
def pop3Step (fetchCount : Nat) (st : Pop3State) (ev : Pop3Event) : Pop3State :=
  match ev with
  | .retrErr => { st with fetched := st.fetched + 1 }
  | .parseErr => st
  | .parsed i d =>
    let emails := st.emails ++ [⟨i, d⟩]
    let fetched := st.fetched + 1
    if fetched = fetchCount then
      { fetched := fetched, emails := emails
        result := match st.result with | some r => some r | none => some emails
        quitCalled := true }
    else
      { st with fetched := fetched, emails := emails }

/-- Environment of one `fetchPop3Emails` call; `events` lists the retr
callback completions in the order they fire. -/
structure Pop3FetchEnv where
  connectErr : Option String
  loginErr : Option String
  statErr : Option String
  msgCount : Nat
  count : Nat
  events : List Pop3Event

/-- Settled state of a JS promise, `pending` when no resolution path ran. -/
inductive PromiseResult (α : Type) where
  | resolved (val : α)
  | rejected (e : JsError)
  | pending
  deriving DecidableEq, Repr

/-- Observable outcome of one `fetchPop3Emails` call: settled promise (or
`pending`), number of RETR commands issued, and whether `client.quit()`
ran. -/
structure Pop3FetchOutcome where
  result : PromiseResult (List Pop3Msg)
  retrIssued : Nat
  quitCalled : Bool
  deriving DecidableEq, Repr

/-- `fetchPop3Emails` from `emailUtils.js`: connection/login/stat errors
quit and reject; `min(msgCount, count) = 0` quits and resolves `[]`
without a RETR; otherwise RETR is issued for indices `1..fetchCount` and
the completion events drive `pop3Step`. -/
def fetchPop3EmailsRun (env : Pop3FetchEnv) : Pop3FetchOutcome :=
  match env.connectErr with
  | some e => ⟨.rejected (.err ("POP3 connection error: " ++ e)), 0, true⟩
  | none =>
    match env.loginErr with
    | some e => ⟨.rejected (.err ("POP3 login failed: " ++ e)), 0, true⟩
    | none =>
      match env.statErr with
      | some e => ⟨.rejected (.err ("POP3 stat failed: " ++ e)), 0, true⟩
      | none =>
        let fetchCount := min env.msgCount env.count
        if fetchCount = 0 then ⟨.resolved [], 0, true⟩
        else
          let final := env.events.foldl (pop3Step fetchCount) ⟨0, [], none, false⟩
          ⟨match final.result with
            | some l => .resolved l
            | none => .pending,
           fetchCount, final.quitCalled⟩

/-- Environment of one `markAsRead` call. -/
structure MarkReadEnv where
  connectErr : Option String
  openBoxErr : Option String
  addFlagsErr : Option String
  deriving DecidableEq, Repr

/-- Observable outcome of a simple IMAP adapter call
(`testImapConnection`, `markAsRead`): the settled promise and whether
`imap.end()` was called before it settled. -/
structure ImapCallOutcome where
  result : Except JsError Bool
  ended : Bool
  deriving Repr

/-- `testImapConnection` from `emailUtils.js`: the `ready` event calls
`imap.end()` and resolves `true`; the `error` event rejects without
calling `end()`. -/
def testImapConnectionRun (errEvent : Option String) : ImapCallOutcome :=
  match errEvent with
  | none => ⟨.ok true, true⟩
  | some e => ⟨.error (.err e), false⟩

/-- `markAsRead` from `emailUtils.js`: connection error → reject without
`end()`; `openBox('INBOX', false)` error → reject without `end()`;
`addFlags` calls `imap.end()` first and then settles by its error. -/
def markAsReadRun (env : MarkReadEnv) : ImapCallOutcome :=
  match env.connectErr with
  | some e => ⟨.error (.err e), false⟩
  | none =>
    match env.openBoxErr with
    | some e => ⟨.error (.err e), false⟩
    | none =>
      match env.addFlagsErr with
      | some e => ⟨.error (.err e), true⟩
      | none => ⟨.ok true, true⟩

/-- Options record handed to `nodemailer.createTransport` (the fields the
claims are about). -/
structure SmtpTransportOptions where
  host : String
  port : Int
  secure : Bool
  authUser : String
  authPass : String
  deriving DecidableEq, Repr

/-- Transport construction inside `testSmtpConnection`:
`secure: smtpPort === 465`. -/
def mkTestSmtpTransport (email password smtpHost : String) (smtpPort : Int) :
    SmtpTransportOptions :=
  { host := smtpHost, port := smtpPort, secure := smtpPort == 465
    authUser := email, authPass := password }

/-- Transport construction inside `sendEmail`: `secure: smtpPort === 465`. -/
def mkSendSmtpTransport (sender password smtpHost : String) (smtpPort : Int) :
    SmtpTransportOptions :=
  { host := smtpHost, port := smtpPort, secure := smtpPort == 465
    authUser := sender, authPass := password }

/-- The `/api/mark-read` request body (after boundary validation).  The
receive protocol of the account is part of the client's configuration and
travels with its requests; the handler destructures only
`{email, password, imapHost, imapPort, messageIds}` and never reads the
protocol. -/
structure MarkReadReq where
  fetchProtocol : String
  imapHost : Option String
  imapPort : Option Int
  messageIds : List Int
  deriving Repr

/-- The JSON the `/api/mark-read` handler sends. -/
inductive MarkReadResponse where
  | settingsError (msg : String)
  | success
  | failure (msg : String)
  deriving DecidableEq, Repr

/-- The settings error of `/api/mark-read`. -/
def markReadSettingsErrMsg : String := "Не удалось определить настройки IMAP сервера."

/-- Renders a rejection reason as the `error.message` string put into the
failure JSON. -/
def errText : JsError → String
  | .typeError => "TypeError"
  | .err m => m

/-- Observable outcome of one `/api/mark-read` request: whether an IMAP
connection attempt (`markAsRead`, hence `imap.connect()`) was made, and
the response sent. -/
structure MarkReadHandlerOutcome where
  networkAttempted : Bool
  response : MarkReadResponse
  deriving DecidableEq, Repr

/-- The `/api/mark-read` handler from `https-examples.js`
(post-validation): resolve provider settings, merge the final IMAP
host/port, return the settings error when the final host is falsy, and
otherwise invoke `markAsRead` — an IMAP network call — whatever
`fetchProtocol` the account uses; `net` is that call's environment. -/
def markReadHandler (table : ProviderTable) (email : String)
    (req : MarkReadReq) (net : MarkReadEnv) :
    Except JsError MarkReadHandlerOutcome :=
  match getProviderSettings table email with
  | .error e => .error e
  | .ok ps =>
    match finalHost ps (·.imap) req.imapHost, finalPort ps (·.imap) req.imapPort with
    | .ok fImapH, .ok _ =>
      if strFalsy fImapH then
        .ok ⟨false, .settingsError markReadSettingsErrMsg⟩
      else
        match (markAsReadRun net).result with
        | .ok _ => .ok ⟨true, .success⟩
        | .error e => .ok ⟨true, .failure (errText e)⟩
    | .error e, _ => .error e
    | _, .error e => .error e

mutual
/-- One node of the `getBoxes` hierarchy: its delimiter and its `children`
value — `null`/`undefined` (falsy, no recursion) or a child mapping
(truthy, recursed into even when empty). -/
inductive BoxNode where
  | leaf (delim : String)
  | parent (delim : String) (children : BoxList)
/-- A name→node mapping in `for (const name in boxes)` key order. -/
inductive BoxList where
  | nil
  | cons (name : String) (b : BoxNode) (rest : BoxList)
end

/-- `boxes[name].delimiter`. -/
def BoxNode.delim : BoxNode → String
  | .leaf d => d
  | .parent d _ => d

/-- `boxes[name].children` as a JS value: `none` embeds `null`/`undefined`. -/
def BoxNode.childrenOpt : BoxNode → Option BoxList
  | .leaf _ => none
  | .parent _ ch => some ch

/-- One emitted folder record `{name, delimiter, children}`. -/
structure FolderEntry where
  name : String
  delimiter : String
  children : Option BoxList

/-- `extractFolderNames(boxes, prefix)` from `emailUtils.js`: for each
entry push `{name: prefix + name, delimiter, children}`, and when
`children` is truthy splice in the recursion with the accumulated name
plus the node's delimiter, before moving to the next sibling. -/
def extractFolderNames : BoxList → String → List FolderEntry
  | .nil, _ => []
  | .cons name b rest, pref =>
    let fullName := pref ++ name
    let entry : FolderEntry := ⟨fullName, b.delim, b.childrenOpt⟩
    match b with
    | .leaf _ => entry :: extractFolderNames rest pref
    | .parent d ch =>
      entry :: (extractFolderNames ch (fullName ++ d) ++ extractFolderNames rest pref)

/-- Spec §4.3, stated in its own words: "for each entry, emit a node whose
name is `prefix + entryName`; if it has children, recurse with prefix =
`emittedName + delimiter`, appending results depth-first after the
parent."  Computes the emitted name sequence. -/
def specFlattenNames : BoxList → String → List String
  | .nil, _ => []
  | .cons name b rest, pref =>
    let emitted := pref ++ name
    match b with
    | .leaf _ => emitted :: specFlattenNames rest pref
    | .parent d ch =>
      emitted :: (specFlattenNames ch (emitted ++ d) ++ specFlattenNames rest pref)

/-- C2 (counterexample): a markRead request configured for POP3 (the
handler receives `fetchProtocol = "pop3"`) with a determinable IMAP host
leads to an IMAP network attempt that succeeds — not to an
UnsupportedOperation rejection, and a network call is made. -/
theorem c2_pop3_markread_counterexample :
    markReadHandler [] "user@custom.example"
      ⟨"pop3", some "imap.custom.example", some 993, [1, 2]⟩
      ⟨none, none, none⟩
      = .ok ⟨true, .success⟩ := by
  rfl

/-- C2 (amended): the mark-read handler never inspects the configured
receive protocol — two requests differing only in `fetchProtocol` are
processed identically, so a POP3-configured request takes the IMAP path
(network attempt when the final IMAP host is determinable, settings error
otherwise) and no UnsupportedOperation rejection exists. -/
theorem c2_markread_ignores_protocol (table : ProviderTable) (email : String)
    (p q : String) (hp : Option String) (pt : Option Int) (ids : List Int)
    (net : MarkReadEnv) :
    markReadHandler table email ⟨p, hp, pt, ids⟩ net
      = markReadHandler table email ⟨q, hp, pt, ids⟩ net := by
  rfl

/-- C5: the POP3 fetch operation does not resolve once every requested
index has been attempted.  With one message requested whose retrieval
fails, `fetched` is incremented but no completion check runs, so the
promise stays pending forever and `quit` is never called; and a parse
failure is not counted at all, so two attempted indices of which one
fails to parse likewise leave the promise pending. -/
theorem c5_pop3_never_resolves :
    (fetchPop3EmailsRun ⟨none, none, none, 1, 1, [.retrErr]⟩).result = .pending
    ∧ (fetchPop3EmailsRun ⟨none, none, none, 1, 1, [.retrErr]⟩).quitCalled = false
    ∧ (fetchPop3EmailsRun ⟨none, none, none, 2, 2,
        [.parsed 1 5, .parseErr]⟩).result = .pending := by
  exact ⟨rfl, rfl, rfl⟩

/-- C6 (counterexample): an IMAP fetch with `count = 0` against a
one-message mailbox still issues a transport fetch (`imap.seq.fetch` with
the inverted window `2:1`), contradicting "count = 0 ... yields the empty
list and no transport fetch call is issued"; and since RFC 3501 sequence
ranges are order-immaterial, a server reading `2:1` as `1:2` streams
message 1 back, so the resolved list has length `1 > min(0, 1)` — the
claimed window bound fails too. -/
theorem c6_count_zero_still_fetches :
    (fetchImapEmailsRun
        ⟨none, none, 1, 0, (fun _ => ⟨0, 7, false⟩), none, [1]⟩).fetchIssued = true
    ∧ (fetchImapEmailsRun
        ⟨none, none, 1, 0, (fun _ => ⟨0, 7, false⟩), none, [1]⟩).result
      = .ok [⟨0, 7, true⟩]
    ∧ ¬ ([(⟨0, 7, true⟩ : EmailMsg)].length ≤ min 0 1) := by
  exact ⟨rfl, rfl, by decide⟩

/-- C9: adapter calls do not release the connection on every exit path.
`testImapConnection`'s error path rejects without `imap.end()`;
`fetchImapEmails` rejects on an `openBox` failure with the authenticated
connection left open; `markAsRead` does the same — each settles its
promise with `ended = false`. -/
theorem c9_connection_leak_on_error_paths :
    ((testImapConnectionRun (some "connect ETIMEDOUT")).result
        = .error (.err "connect ETIMEDOUT")
      ∧ (testImapConnectionRun (some "connect ETIMEDOUT")).ended = false)
    ∧ ((fetchImapEmailsRun ⟨none, some "Mailbox does not exist", 3, 5,
          (fun _ => ⟨0, 0, false⟩), none, []⟩).result
        = .error (.err "Mailbox does not exist")
      ∧ (fetchImapEmailsRun ⟨none, some "Mailbox does not exist", 3, 5,
          (fun _ => ⟨0, 0, false⟩), none, []⟩).ended = false)
    ∧ ((markAsReadRun ⟨none, some "Mailbox does not exist", none⟩).result
        = .error (.err "Mailbox does not exist")
      ∧ (markAsReadRun ⟨none, some "Mailbox does not exist", none⟩).ended = false) := by
  exact ⟨⟨rfl, rfl⟩, ⟨rfl, rfl⟩, ⟨rfl, rfl⟩⟩

/-- C10: both SMTP transport constructions (`testSmtpConnection` and
`sendEmail`) set the TLS `secure` flag to `smtpPort === 465` and nothing
else — in particular it is independent of the provider endpoint's
configured `secure` flag (the endpoint is quantified, its flag unused),
and a port-587 endpoint always yields `secure = false`. -/
theorem c10_smtp_secure_iff_port_465 (e : Endpoint) (email pass : String) :
    (mkTestSmtpTransport email pass e.host e.port).secure = (e.port == 465)
    ∧ (mkSendSmtpTransport email pass e.host e.port).secure = (e.port == 465)
    ∧ (mkTestSmtpTransport email pass e.host 587).secure = false
    ∧ (mkSendSmtpTransport email pass e.host 587).secure = false := by
  have h587 : ((587 : Int) == 465) = false := by decide
  exact ⟨rfl, rfl, h587, h587⟩

theorem pop3_fold_invariant (fc : Nat) :
    ∀ (events : List Pop3Event) (st : Pop3State),
      st.emails.length ≤ st.fetched →
      (∀ r, st.result = some r → r.length ≤ fc) →
      ((events.foldl (pop3Step fc) st).emails.length
          ≤ (events.foldl (pop3Step fc) st).fetched
        ∧ ∀ r, (events.foldl (pop3Step fc) st).result = some r → r.length ≤ fc) := by
  intro events
  induction events with
  | nil => exact fun st h1 h2 => ⟨h1, h2⟩
  | cons ev rest ih =>
    intro st h1 h2
    simp only [List.foldl_cons]
    apply ih
    · cases ev with
      | retrErr => simpa [pop3Step] using Nat.le_succ_of_le h1
      | parseErr => simpa [pop3Step] using h1
      | parsed i d =>
        simp only [pop3Step]
        split
        · simpa using h1
        · simpa using h1
    · cases ev with
      | retrErr => simpa [pop3Step] using h2
      | parseErr => simpa [pop3Step] using h2
      | parsed i d =>
        simp only [pop3Step]
        split
        · rename_i hfc
          intro r hr
          simp only at hr
          cases hres : st.result with
          | some r0 =>
            rw [hres] at hr
            simp at hr
            subst hr
            exact h2 r0 hres
          | none =>
            rw [hres] at hr
            simp at hr
            subst hr
            simp only [List.length_append, List.length_cons, List.length_nil]
            omega
        · intro r hr
          simp only at hr
          exact h2 r hr

/-- C6 (amended): every resolved POP3 list has length at most
`min(count, total)` for all `count ≥ 0`, and every resolved IMAP list
obeys the same bound for every `count ≥ 1`; an empty mailbox never
triggers an IMAP transport fetch, and a zero-size POP3 window issues no
RETR.  The `count = 0`, non-empty-mailbox IMAP case is excluded because
there the code still issues a fetch with an inverted window whose
delivery is the server's choice (see the counterexample, where an RFC
3501-conforming server breaks both the empty result and the bound). -/
theorem c6_window_bound :
    (∀ (env : ImapFetchEnv) (l : List EmailMsg), 1 ≤ env.count →
        (fetchImapEmailsRun env).result = .ok l → l.length ≤ min env.count env.total)
    ∧ (∀ env : ImapFetchEnv, env.total = 0 → (fetchImapEmailsRun env).fetchIssued = false)
    ∧ (∀ (env : Pop3FetchEnv) (l : List Pop3Msg),
        (fetchPop3EmailsRun env).result = .resolved l →
          l.length ≤ min env.count env.msgCount)
    ∧ (∀ env : Pop3FetchEnv, min env.msgCount env.count = 0 →
        (fetchPop3EmailsRun env).retrIssued = 0) := by
  refine ⟨?_, ?_, ?_, ?_⟩
  · rintro ⟨ce, obe, total, count, mb, fe, inv⟩ l hc h
    have hc' : 1 ≤ count := hc
    cases ce with
    | some e => simp [fetchImapEmailsRun] at h
    | none =>
      cases obe with
      | some e => simp [fetchImapEmailsRun] at h
      | none =>
        by_cases htot : total = 0
        · simp [fetchImapEmailsRun, htot] at h
          subst h
          simp
        · cases fe with
          | some e => simp [fetchImapEmailsRun, htot] at h
          | none =>
            simp [fetchImapEmailsRun, htot] at h
            subst h
            rw [length_sortByDateDesc, List.length_map]
            split
            · rw [List.length_range']
              simp only
              omega
            · rename_i hcontra
              exfalso
              omega
  · rintro ⟨ce, obe, total, count, mb, fe, inv⟩ h0
    cases ce with
    | some e => simp [fetchImapEmailsRun]
    | none =>
      cases obe with
      | some e => simp [fetchImapEmailsRun]
      | none =>
        have h0' : total = 0 := h0
        simp [fetchImapEmailsRun, h0']
  · rintro ⟨ce, le, se, msgCount, count, events⟩ l h
    cases ce with
    | some e => simp [fetchPop3EmailsRun] at h
    | none =>
      cases le with
      | some e => simp [fetchPop3EmailsRun] at h
      | none =>
        cases se with
        | some e => simp [fetchPop3EmailsRun] at h
        | none =>
          by_cases hfc : min msgCount count = 0
          · simp [fetchPop3EmailsRun, hfc] at h
            subst h
            simp
          · simp only [fetchPop3EmailsRun, if_neg hfc] at h
            rcases hres : (events.foldl (pop3Step (min msgCount count))
                ⟨0, [], none, false⟩).result with _ | r
            · rw [hres] at h
              simp at h
            · rw [hres] at h
              simp at h
              subst h
              have hinv := (pop3_fold_invariant (min msgCount count) events
                ⟨0, [], none, false⟩ (by simp) (by simp)).2 r hres
              simpa [Nat.min_comm count msgCount] using hinv
  · rintro ⟨ce, le, se, msgCount, count, events⟩ h0
    cases ce with
    | some e => simp [fetchPop3EmailsRun]
    | none =>
      cases le with
      | some e => simp [fetchPop3EmailsRun]
      | none =>
        cases se with
        | some e => simp [fetchPop3EmailsRun]
        | none =>
          have h0' : min msgCount count = 0 := h0
          simp [fetchPop3EmailsRun, h0']

/-- C6 witness: a two-message mailbox fetched with `count = 1` over IMAP
resolves with one message, within the `min(count, total)` bound. -/
theorem c6_window_bound_witness :
    ([⟨2, 2, true⟩] : List EmailMsg).length ≤ min 1 2 :=
  c6_window_bound.1
    ⟨none, none, 2, 1, (fun i => ⟨(i : Int), (i : Int), false⟩), none, []⟩
    [⟨2, 2, true⟩] (by decide) rfl

theorem extract_names_spec : ∀ (bl : BoxList) (pref : String),
    (extractFolderNames bl pref).map (·.name) = specFlattenNames bl pref
  | .nil, _ => rfl
  | .cons name b rest, pref => by
    cases b with
    | leaf d =>
      simp only [extractFolderNames, specFlattenNames, List.map_cons]
      rw [extract_names_spec rest pref]
    | parent d ch =>
      simp only [extractFolderNames, specFlattenNames, List.map_cons, List.map_append]
      rw [extract_names_spec ch _, extract_names_spec rest pref]

/-- C8: the flattener is pure and its emitted name sequence is exactly the
spec's depth-first, parent-before-children recursion (`prefix + entryName`,
children under `emittedName + delimiter`); on the top-level folders
`A`, `B`, `C` with `D` nested under `C` and delimiter `/` the emitted
names are `[A, B, C, C/D]`. -/
theorem c8_folder_flattening :
    (∀ (bl : BoxList) (pref : String),
        (extractFolderNames bl pref).map (·.name) = specFlattenNames bl pref)
    ∧ (extractFolderNames
        (.cons "A" (.leaf "/")
          (.cons "B" (.leaf "/")
            (.cons "C" (.parent "/" (.cons "D" (.leaf "/") .nil)) .nil))) "").map (·.name)
      = ["A", "B", "C", "C/D"] := by
  refine ⟨extract_names_spec, ?_⟩
  rfl
